import Mathlib

set_option maxRecDepth 8000

/-! Verification development for the ora resource-lifecycle and
parameter-bind core.

The sources under verification are the statement file (statement lifecycle,
bind dispatcher, execution), `srv.go` (server lifecycle, session opening) and
`drv.go` (driver configuration).  Native OCI calls, the object pools and the
collaborator files that are not part of the given sources (bind-descriptor
implementations, error helpers, the list helpers, the environment type) are
modelled as explicit outcome parameters or small definitions; each such
definition is marked `Modelled from the spec:`.  Everything else is a direct
translation of the Go source. -/

/-- One failure collected during a multi-step operation.  `msg` is a plain
`er(...)`-style error (also standing in for an opaque child-close failure),
`recovered` the `RecoveredFault` produced by `errR` from a recovered panic
value. -/
inductive ErrAtom where
  | msg (s : String)
  | recovered (v : String)
deriving DecidableEq

/-- An error value returned to the caller: a single failure or the
`MultiError` aggregate produced by a cascading close. -/
inductive Err where
  | atom (a : ErrAtom)
  | multi (es : List ErrAtom)
deriving DecidableEq

/-- `er` builds a plain error, as the source helper `er(...)` does. -/
def er (s : String) : Err := Err.atom (ErrAtom.msg s)

/-- Modelled from the spec: `errE` (not under src) only annotates an error
with caller information, so on the error value it is the identity. -/
def errE (e : Err) : Err := e

/-- Modelled from the spec: `errR` (not under src) converts a recovered panic
value into a `RecoveredFault`-class error. -/
def errR (v : String) : Err := Err.atom (ErrAtom.recovered v)

/-- Modelled from the spec: `newMultiErrL` (not under src) reduces the error
list collected by a cascading close to a single outcome: `none` when nothing
failed, otherwise one `MultiError` value carrying all failures in order. -/
def newMultiErrL (es : List ErrAtom) : Option Err :=
  match es with
  | [] => none
  | es => some (Err.multi es)

/-- The list of failures an aggregated close outcome reports. -/
def errsOf : Option Err → List ErrAtom
  | none => []
  | some (Err.multi es) => es
  | some (Err.atom a) => [a]

/-- Result of a Go computation that can end in a runtime panic. -/
inductive GoResult (α : Type) where
  | ok (a : α)
  | panicked (m : String)
deriving DecidableEq

/-- Result of a stateful Go computation.  Heap mutations performed before a
panic survive it, so the state is carried on both outcomes. -/
inductive GoSt (σ : Type) (α : Type) where
  | ok (s : σ) (a : α)
  | panicked (s : σ) (m : String)
deriving DecidableEq

def GoSt.state {σ α : Type} : GoSt σ α → σ
  | .ok s _ => s
  | .panicked s _ => s

def GoSt.isOkB {σ α : Type} : GoSt σ α → Bool
  | .ok _ _ => true
  | .panicked _ _ => false

def GoSt.valOr {σ α : Type} (x : GoSt σ α) (d : α) : α :=
  match x with
  | .ok _ a => a
  | .panicked _ _ => d

def GoSt.run {σ α β : Type} (x : GoSt σ α) (f : σ → α → GoSt σ β) : GoSt σ β :=
  match x with
  | .ok s a => f s a
  | .panicked s m => .panicked s m

/-- Modelled from the spec: the observable outcome of one provider call or one
child close during a multi-step operation — success, an error, or a Go panic
raised inside the call before its own recovery is installed. -/
inductive StepOutcome where
  | ok
  | fail (e : ErrAtom)
  | panicV (m : String)
deriving DecidableEq

/-- Go runtime message for a nil-pointer dereference. -/
def nilDerefMsg : String :=
  "runtime error: invalid memory address or nil pointer dereference"

/-- Go runtime message for an out-of-range slice index. -/
def oobMsg : String := "runtime error: index out of range"

/-- OCI constants used by the source (values as in oci.h). -/
def OCI_DEFAULT : Nat := 0

def OCI_COMMIT_ON_SUCCESS : Nat := 32

def OCI_STMT_SELECT : Nat := 1

def OCI_STMT_UPDATE : Nat := 2

def OCI_STMT_DELETE : Nat := 3

def OCI_STMT_INSERT : Nat := 4

def SQLT_CHR : Nat := 1

def SQLT_INT : Nat := 3

def SQLT_UIN : Nat := 68

/-! ## Go string helpers

`Stmt.exe` recognises a trailing `RETURNING ... INTO` clause with
`strings.LastIndex`, a `strings.Replacer` and `strings.ToUpper`.  The helpers
below model those library functions on `List Char` (the sources involved are
ASCII, where a char index coincides with Go's byte index). -/

/-- `strings.LastIndex`: the largest index at which `sub` starts in `s`,
`none` standing for Go's `-1`. -/
def lastIndexList (sub s : List Char) : Option Nat :=
  ((List.range (s.length + 1)).filter (fun i => sub.isPrefixOf (s.drop i))).getLast?

/-- `strings.Contains`. -/
def containsList (sub s : List Char) : Bool :=
  (lastIndexList sub s).isSome

/-- The package-level replacer `spcRpl = strings.NewReplacer("\t", " ",
"   ", " ", "  ", " ")`: scans left to right without overlapping matches,
earlier patterns taking priority at each position. -/
def spcRplReplace : List Char → List Char
  | [] => []
  | '\t' :: rest => ' ' :: spcRplReplace rest
  | ' ' :: ' ' :: ' ' :: rest => ' ' :: spcRplReplace rest
  | ' ' :: ' ' :: rest => ' ' :: spcRplReplace rest
  | c :: rest => c :: spcRplReplace rest

/-- `strings.ToUpper` on the ASCII fragment the source feeds it. -/
def goToUpper (s : List Char) : List Char := s.map Char.toUpper

/-! ## Configuration -/

/-- Modelled from the spec: the statement configuration surface (the StmtCfg
type itself is not under src); only the options the given sources read are
carried.  The zero value is the Go zero `StmtCfg{}`. -/
structure StmtCfgV where
  isAutoCommitting : Bool := false
  prefetchRowCount : Nat := 0
  prefetchMemorySize : Nat := 0
  lobBufferSize : Nat := 0
  stringPtrBufferSize : Nat := 0
deriving DecidableEq

/-- Modelled from the spec: `StmtCfg.IsZero` — the configuration equals its
zero value. -/
def StmtCfgV.IsZero (c : StmtCfgV) : Bool := c = {}

/-! ## Bind dispatcher model

The bind dispatcher (`Stmt.bind`) switches on the dynamic type of each
parameter.  The model carries a representative subset of the source's cases,
each translated from its own `case` body: `int64`, `int32`, the nullable
wrappers `Int64`/`Int32`, the output pointers `*int64`/`*int32`, the batches
`[]int64`/`[]int32`, and a nil interface value (the `default` branch).  Output
pointers are identified by an abstract location. -/

/-- A parameter value passed to `Stmt.bind`. -/
inductive Param where
  | i64 (v : Int)
  | i32 (v : Int)
  | w64 (isNull : Bool) (v : Int)
  | w32 (isNull : Bool) (v : Int)
  | p64 (loc : Nat)
  | p32 (loc : Nat)
  | s64 (vs : List Int)
  | s32 (vs : List Int)
  | nilV
deriving DecidableEq

/-- A bind descriptor installed into `stmt.bnds`. -/
inductive Bnd where
  | bInt64 (v : Int)
  | bInt32 (v : Int)
  | bInt64Ptr (loc : Nat)
  | bInt32Ptr (loc : Nat)
  | bInt64Slice (vs : List Int)
  | bInt32Slice (vs : List Int)
  | bNil (sqlt : Nat)
deriving DecidableEq

/-- A bind descriptor that owns an output location written back after a
successful execute. -/
def Bnd.requiresCopyBack : Bnd → Bool
  | .bInt64Ptr _ => true
  | .bInt32Ptr _ => true
  | _ => false

/-- Trace of the binder invocations a bind pass performs (the calls into the
per-type `bnd*.bind` implementations; positions are 1-based as in the
source). -/
inductive BndCall where
  | int64V (v : Int) (pos : Nat)
  | int32V (v : Int) (pos : Nat)
  | int64PtrB (loc : Nat) (pos : Nat)
  | int32PtrB (loc : Nat) (pos : Nat)
  | int64SliceB (vs : List Int) (pos : Nat)
  | int32SliceB (vs : List Int) (pos : Nat)
  | nilB (pos : Nat) (sqlt : Nat)
deriving DecidableEq

/-- The mutable state of one bind pass.  `arr` is the backing array of the
local slice `bnds` built by `Stmt.bind`; `oldArr` is the backing array of the
field `stmt.bnds` as it was when the pass started, with `oldLen` its slice
length.  When the old capacity sufficed, `bnds` reslices `stmt.bnds`, so the
two share one array: `aliased` is true and every write is performed on both
views. -/
structure BindSt where
  arr : List (Option Bnd)
  oldArr : List (Option Bnd)
  aliased : Bool
  oldLen : Nat
  hasPtrBind : Bool
  iterations : Nat
  calls : List BndCall
deriving DecidableEq

/-- `bnds[n] = bnd` in the bind loop: a write through the local slice. -/
def BindSt.writeBnd (st : BindSt) (n : Nat) (b : Bnd) : BindSt :=
  { st with arr := st.arr.set n (some b),
            oldArr := if st.aliased then st.oldArr.set n (some b) else st.oldArr }

def BindSt.addCall (st : BindSt) (c : BndCall) : BindSt :=
  { st with calls := st.calls ++ [c] }

/-- `Stmt.setNilBind`: fetches a `bndNil` from its pool and assigns
`stmt.bnds[index] = bnd` — through the statement's OLD slice, not the local
one the bind pass is building.  The write is bounds-checked against the old
slice length and panics when the index is out of range; when the old backing
array is shared with the local slice the write is visible in both.  The nil
binder call `bnd.bind(index+1, sqlt, stmt)` follows (modelled as succeeding,
per the spec's NULL-bind contract). -/
def BindSt.setNilBind (st : BindSt) (index : Nat) (sqlt : Nat) :
    GoSt BindSt Unit :=
  if index < st.oldLen then
    .ok { st with
            oldArr := st.oldArr.set index (some (Bnd.bNil sqlt)),
            arr := if st.aliased then st.arr.set index (some (Bnd.bNil sqlt))
                   else st.arr,
            calls := st.calls ++ [BndCall.nilB (index + 1) sqlt] } ()
  else .panicked st oobMsg

/-- One iteration of the `Stmt.bind` type switch, for parameter `p` at
0-based index `n` (bind position `n+1`).  Each branch is translated from the
corresponding `case` of the source.  The per-type binder calls themselves are
external (their files are not under src) and are modelled as succeeding and
— for the slice binders — returning the batch length as the iteration count,
per the spec. -/
def bindStep (st : BindSt) (p : Param) (n : Nat) : GoSt BindSt Unit :=
  match p with
  | .i64 v =>
    .ok ((st.writeBnd n (Bnd.bInt64 v)).addCall (BndCall.int64V v (n + 1))) ()
  | .i32 v =>
    .ok ((st.writeBnd n (Bnd.bInt32 v)).addCall (BndCall.int32V v (n + 1))) ()
  | .w64 isNull v =>
    if isNull then st.setNilBind n SQLT_INT
    else
      .ok ((st.writeBnd n (Bnd.bInt64 v)).addCall (BndCall.int64V v (n + 1))) ()
  | .w32 isNull v =>
    if isNull then st.setNilBind n SQLT_INT
    else
      .ok ((st.writeBnd n (Bnd.bInt32 v)).addCall (BndCall.int32V v (n + 1))) ()
  | .p64 loc =>
    .ok { (st.writeBnd n (Bnd.bInt64Ptr loc)).addCall
            (BndCall.int64PtrB loc (n + 1)) with hasPtrBind := true } ()
  | .p32 loc =>
    .ok { (st.writeBnd n (Bnd.bInt32Ptr loc)).addCall
            (BndCall.int32PtrB loc (n + 1)) with hasPtrBind := true } ()
  | .s64 vs =>
    .ok { (st.writeBnd n (Bnd.bInt64Slice vs)).addCall
            (BndCall.int64SliceB vs (n + 1)) with iterations := vs.length } ()
  | .s32 vs =>
    .ok { (st.writeBnd n (Bnd.bInt32Slice vs)).addCall
            (BndCall.int32SliceB vs (n + 1)) with iterations := vs.length } ()
  | .nilV => st.setNilBind n SQLT_CHR

/-- The `for n = range params` loop of `Stmt.bind`. -/
def bindLoop (st : BindSt) (n : Nat) : List Param → GoSt BindSt Unit
  | [] => .ok st ()
  | p :: rest =>
    match bindStep st p n with
    | .ok st' _ => bindLoop st' (n + 1) rest
    | .panicked st' m => .panicked st' m

/-! ## Statement state

The `Stmt` struct, with the native references modelled by presence flags:
`ses` is true iff the `*Ses` back-reference is non-nil, `ocistmt` true iff the
native cursor handle is present.  `bndsArr` is the backing array of the
`bnds` slice (its length is the slice capacity) and `bndsLen` the slice
length, so reslicing and aliasing behave as in Go.  The surrounding session
and environment fields a statement dereferences (`stmt.ses.openTxs`,
`stmt.ses.srv.env.isPkgEnv`, the fallback configurations) are carried
alongside in `StmtWorld`. -/

structure StmtS where
  id : Nat := 0
  cfg : Option StmtCfgV := none
  ses : Bool := false
  ocistmt : Bool := false
  stmtType : Nat := 0
  sql : List Char := []
  gcts : List Nat := []
  bndsArr : List (Option Bnd) := []
  bndsLen : Nat := 0
  hasPtrBind : Bool := false
  stringPtrBufferSize : Nat := 0
  openRsets : List Nat := []
deriving DecidableEq

/-- A statement together with the session/environment state it reads. -/
structure StmtWorld where
  stmt : StmtS
  sesOpenStmts : List Nat := []
  sesOpenTxs : Nat := 0
  sesStmtCfg : StmtCfgV := {}
  envIsPkgEnv : Bool := false
  envCfg : StmtCfgV := {}
deriving DecidableEq

/-- `Stmt.Cfg`: the statement's own configuration, the package environment's
when the environment is the database/sql one, else the session's when the own
one is zero.  (Callers reach this only with a live session; the nil-receiver
chain `stmt.ses.srv.env` is modelled at the call sites.) -/
def Stmt.CfgOf (w : StmtWorld) : StmtCfgV :=
  let cfg := w.stmt.cfg.getD {}
  if w.envIsPkgEnv then w.envCfg
  else if cfg.IsZero then w.sesStmtCfg
  else cfg

/-- `Stmt.checkClosed`: an error when the native cursor handle is absent. -/
def stmtCheckClosed (s : StmtS) : Option Err :=
  if s.ocistmt then none else some (er "Stmt is closed.")

/-- `Stmt.IsOpen`.  The method takes the statement's lock before reading the
handle, so a nil receiver dereferences nil and panics. -/
def Stmt.IsOpen (stmt : Option StmtS) : GoResult Bool :=
  match stmt with
  | none => .panicked nilDerefMsg
  | some s => .ok s.ocistmt

/-- The result of one `Stmt.bind` pass: the iteration count and error the
function returns, plus the trace of binder invocations it performed. -/
structure BindOut where
  iterations : Nat := 1
  err : Option Err := none
  calls : List BndCall := []
deriving DecidableEq

/-- The initial loop state of a bind pass over `plen` parameters: when
`cap(stmt.bnds) < len(params)` a fresh local array is allocated, otherwise
the local slice reuses (aliases) the statement's backing array resliced to
the parameter count. -/
def bindSt0 (w : StmtWorld) (plen : Nat) : BindSt :=
  { arr := if w.stmt.bndsArr.length < plen then List.replicate plen none
           else w.stmt.bndsArr,
    oldArr := w.stmt.bndsArr,
    aliased := !decide (w.stmt.bndsArr.length < plen),
    oldLen := w.stmt.bndsLen,
    hasPtrBind := w.stmt.hasPtrBind,
    iterations := 1,
    calls := [] }

/-- `Stmt.bind`.  An empty parameter list returns iteration count 1 at once.
Otherwise a local slice `bnds` is set up (`bindSt0`) — reusing the backing
array of `stmt.bnds` when its capacity suffices (`aliased`), else a freshly
allocated one — the type-switch loop runs, and only on normal completion is
`stmt.bnds = bnds` stored together with the new length.  `stmt.hasPtrBind`
is written directly by the loop, so it survives an early exit.  The
`isAssocArray` flag is passed through to the slice binders (whose modelled
iteration result is the batch length either way, per the spec). -/
def Stmt.bindGo (w : StmtWorld) (params : List Param) (isAssocArray : Bool) :
    GoSt StmtWorld BindOut :=
  if params.length = 0 then .ok w { iterations := 1 }
  else
    match bindLoop (bindSt0 w params.length) 0 params with
    | .ok st _ =>
      .ok { w with stmt := { w.stmt with
                bndsArr := st.arr, bndsLen := params.length,
                hasPtrBind := st.hasPtrBind } }
          { iterations := st.iterations, err := none, calls := st.calls }
    | .panicked st m =>
      .panicked { w with stmt := { w.stmt with
                    bndsArr := st.oldArr, hasPtrBind := st.hasPtrBind } } m

/-! ## Statement execution -/

/-- The status the provider's `OCIStmtExecute` reports. -/
inductive OciR where
  | success
  | error
  | noData
deriving DecidableEq

/-- Outcomes of the provider calls `Stmt.exe`/`Stmt.qry` performs, plus the
values the provider reports.  `setPtrErrAt n` is the outcome of
`bnds[n].setPtr()`; `outVals n` the value the provider wrote for the output
descriptor at position `n` (modelled from the spec's copy-back contract —
the bind-descriptor files are not under src). -/
structure ExeEnv where
  setAttrPrefetchErr : Option Err := none
  execStatus : OciR := .success
  ociErrMsg : String := "ORA-EXEC"
  rowCountAttrErr : Option Err := none
  rowCountVal : Nat := 0
  setPtrErrAt : Nat → Option Err := fun _ => none
  outVals : Nat → Int := fun _ => 0
  newRsetId : Nat := 1
  rsetOpenErr : Option Err := none

/-- `Stmt.setPrefetchSize`: reads `stmt.Cfg()` (dereferencing
`stmt.ses.srv.env`, hence panicking on a closed-out session reference) and
issues at most one provider `setAttr` call. -/
def Stmt.setPrefetchSizeGo (w : StmtWorld) (penv : ExeEnv) :
    GoSt StmtWorld (Option Err) :=
  if !w.stmt.ses then .panicked w nilDerefMsg
  else
    let cfg := Stmt.CfgOf w
    if cfg.prefetchRowCount > 0 then .ok w (penv.setAttrPrefetchErr.map errE)
    else if cfg.prefetchMemorySize > 0 then .ok w (penv.setAttrPrefetchErr.map errE)
    else .ok w none

/-- The location standing for the address of `Stmt.exe`'s local
`lastInsertId` variable. -/
def lastInsertIdLoc : Nat := 0

/-- The `RETURNING ... INTO` recogniser of `Stmt.exe`: take the text after
the last `)`, normalise runs of whitespace with `spcRpl`, upper-case it, and
require a final `RETURNING` followed by ` /*LASTINSERTID*/ INTO `. -/
def stmtReturningRecognized (sql : List Char) : Bool :=
  let start := match lastIndexList [')'] sql with
               | some i => i + 1
               | none => 0
  let sqlEnd := goToUpper (spcRplReplace (sql.drop start))
  match lastIndexList "RETURNING".toList sqlEnd with
  | some i => containsList " /*LASTINSERTID*/ INTO ".toList (sqlEnd.drop i)
  | none => false

/-- The parameter substitution of `Stmt.exe`: under the package environment,
for an Insert whose text carries the recognised clause, the last parameter is
replaced by `&lastInsertId`; with an empty parameter list the write to
`params[len(params)-1]` panics. -/
def exeSubstParams (w : StmtWorld) (params : List Param) :
    GoResult (List Param) :=
  if w.envIsPkgEnv ∧ w.stmt.stmtType = OCI_STMT_INSERT then
    if stmtReturningRecognized w.stmt.sql then
      if params.length = 0 then .panicked oobMsg
      else .ok (params.set (params.length - 1) (Param.p64 lastInsertIdLoc))
    else .ok params
  else .ok params

/-- `Stmt.setBindPtrs`'s loop over `stmt.bnds`: each descriptor's `setPtr` is
invoked in order until the first error; output descriptors write the
provider-reported value for their position through their location.  A nil
slice entry is a nil interface, whose method call panics.  Returns the error
(if any) and the ordered writes performed before it. -/
def setBindPtrsLoop (penv : ExeEnv) (n : Nat) :
    List (Option Bnd) → GoResult (Option Err × List (Nat × Int))
  | [] => .ok (none, [])
  | none :: _ => .panicked nilDerefMsg
  | some b :: rest =>
    match penv.setPtrErrAt n with
    | some e => .ok (some (errE e), [])
    | none =>
      let wr : List (Nat × Int) :=
        match b with
        | .bInt64Ptr loc => [(loc, penv.outVals n)]
        | .bInt32Ptr loc => [(loc, penv.outVals n)]
        | _ => []
      match setBindPtrsLoop penv (n + 1) rest with
      | .ok (e, ws) => .ok (e, wr ++ ws)
      | .panicked m => .panicked m

/-- The final value at a location after a sequence of writes (0, the Go zero
value of the local, when never written). -/
def lastWriteAt (loc : Nat) (ws : List (Nat × Int)) : Int :=
  (((ws.filter (fun p => p.1 = loc)).getLast?).map Prod.snd).getD 0

/-- The result of `Stmt.exe`, with the mode and iteration count passed to the
provider's execute call recorded (`none` when execution was never reached). -/
structure ExeOut where
  rowsAffected : Nat := 0
  lastInsertId : Int := 0
  err : Option Err := none
  execMode : Option Nat := none
  execIters : Option Nat := none
deriving DecidableEq

/-- The auto-commit mode selection of `Stmt.exe`: `OCI_DEFAULT` unless the
effective configuration auto-commits and the session has no open
transaction.  The statement kind plays no part. -/
def stmtExeMode (cfg : StmtCfgV) (openTxsLen : Nat) : Nat :=
  if cfg.isAutoCommitting then
    if openTxsLen = 0 then OCI_COMMIT_ON_SUCCESS else OCI_DEFAULT
  else OCI_DEFAULT

/-- The execute-and-interpret stage of `Stmt.exe` (everything after a
successful bind and prefetch setup): select the mode, execute, read the row
count for DML kinds (a no-data status is an error only for other kinds), and
copy output binds back when an output bind is flagged. -/
def exeAfterBind (w2 : StmtWorld) (penv : ExeEnv) (iterations : Nat) :
    GoSt StmtWorld ExeOut :=
  let mode := stmtExeMode (Stmt.CfgOf w2) w2.sesOpenTxs
  let r := penv.execStatus
  let stmtType := w2.stmt.stmtType
  let hasPtrBind := w2.stmt.hasPtrBind
  if r = OciR.error then
    .ok w2 { err := some (errE (er penv.ociErrMsg)),
             execMode := some mode, execIters := some iterations }
  else
  let dml := stmtType = OCI_STMT_SELECT ∨ stmtType = OCI_STMT_UPDATE ∨
             stmtType = OCI_STMT_DELETE ∨ stmtType = OCI_STMT_INSERT
  let ra : Option Err × Nat :=
    if dml then
      match penv.rowCountAttrErr with
      | some e => (some (errE e), 0)
      | none => (none, penv.rowCountVal)
    else if r = OciR.noData then (some (errE (er penv.ociErrMsg)), 0)
    else (none, 0)
  match ra.1 with
  | some e =>
    .ok w2 { err := some e, execMode := some mode, execIters := some iterations }
  | none =>
  let rowsAffected := ra.2
  if hasPtrBind then
    match setBindPtrsLoop penv 0 (w2.stmt.bndsArr.take w2.stmt.bndsLen) with
    | .panicked m => .panicked w2 m
    | .ok (some e, ws) =>
      .ok w2 { rowsAffected := rowsAffected,
               lastInsertId := lastWriteAt lastInsertIdLoc ws,
               err := some (errE e),
               execMode := some mode, execIters := some iterations }
    | .ok (none, ws) =>
      .ok w2 { rowsAffected := rowsAffected,
               lastInsertId := lastWriteAt lastInsertIdLoc ws,
               err := none,
               execMode := some mode, execIters := some iterations }
  else
    .ok w2 { rowsAffected := rowsAffected, lastInsertId := 0, err := none,
             execMode := some mode, execIters := some iterations }

/-- The body of `Stmt.exe` (everything under its deferred recover, for a
non-nil receiver): check open, read `stmt.ses.srv.env.isPkgEnv` (a nil
session dereference panics), substitute the identity capture, bind, set the
prefetch size, then execute and interpret the result. -/
def Stmt.exeBody (w : StmtWorld) (penv : ExeEnv) (params : List Param)
    (isAssocArray : Bool) : GoSt StmtWorld ExeOut :=
  match stmtCheckClosed w.stmt with
  | some e => .ok w { err := some (errE e) }
  | none =>
  if !w.stmt.ses then .panicked w nilDerefMsg
  else
  match exeSubstParams w params with
  | .panicked m => .panicked w m
  | .ok params' =>
  (Stmt.bindGo w params' isAssocArray).run fun w1 bout =>
  match bout.err with
  | some e => .ok w1 { err := some (errE e) }
  | none =>
  (Stmt.setPrefetchSizeGo w1 penv).run fun w2 perr =>
  match perr with
  | some e => .ok w2 { err := some (errE e) }
  | none =>
  exeAfterBind w2 penv bout.iterations

/-- `Stmt.exe`: nil-receiver check, then the body under a deferred recover
that converts a panic into an `errR` error (the named results still hold
their values from before the panic; all modelled panic sites precede the
assignments to them). -/
def Stmt.exe (stmt : Option StmtWorld) (penv : ExeEnv) (params : List Param)
    (isAssocArray : Bool) : Option StmtWorld × ExeOut :=
  match stmt with
  | none => (none, { err := some (er "stmt may not be nil.") })
  | some w =>
    match Stmt.exeBody w penv params isAssocArray with
    | .ok w' out => (some w', out)
    | .panicked w' m => (some w', { err := some (errR m) })

/-- `Stmt.Exe`: the exported call — batch slices in iteration mode; the
internal `lastInsertId` result is discarded. -/
def Stmt.Exe (stmt : Option StmtWorld) (penv : ExeEnv) (params : List Param) :
    Option StmtWorld × (Nat × Option Err) :=
  let r := Stmt.exe stmt penv params false
  (r.1, (r.2.rowsAffected, r.2.err))

/-- `Stmt.ExeP`: as `Stmt.Exe` with slices sent as associative arrays. -/
def Stmt.ExeP (stmt : Option StmtWorld) (penv : ExeEnv) (params : List Param) :
    Option StmtWorld × (Nat × Option Err) :=
  let r := Stmt.exe stmt penv params true
  (r.1, (r.2.rowsAffected, r.2.err))

/-- The result of `Stmt.qry`. -/
structure QryOut where
  rset : Option Nat := none
  err : Option Err := none
deriving DecidableEq

/-- The body of `Stmt.qry` under its deferred recover: check open, bind, set
the prefetch size, execute with zero iterations in default mode, copy output
binds back, then open a result set from the pool and register it in
`stmt.openRsets`; a failing open closes the partially-opened result set and
returns the error. -/
def Stmt.qryBody (w : StmtWorld) (penv : ExeEnv) (params : List Param) :
    GoSt StmtWorld QryOut :=
  match stmtCheckClosed w.stmt with
  | some e => .ok w { err := some (errE e) }
  | none =>
  (Stmt.bindGo w params false).run fun w1 bout =>
  match bout.err with
  | some e => .ok w1 { err := some (errE e) }
  | none =>
  (Stmt.setPrefetchSizeGo w1 penv).run fun w2 perr =>
  match perr with
  | some e => .ok w2 { err := some e }
  | none =>
  if penv.execStatus = OciR.error then
    .ok w2 { err := some (errE (er penv.ociErrMsg)) }
  else
  (if w2.stmt.hasPtrBind then
     match setBindPtrsLoop penv 0 (w2.stmt.bndsArr.take w2.stmt.bndsLen) with
     | .panicked m => GoSt.panicked w2 m
     | .ok (some e, _) => GoSt.ok w2 (some (errE e))
     | .ok (none, _) => GoSt.ok w2 (none : Option Err)
   else GoSt.ok w2 (none : Option Err)).run fun w2 pe =>
  match pe with
  | some e => .ok w2 { err := some e }
  | none =>
  match penv.rsetOpenErr with
  | some e => .ok w2 { err := some (errE e) }
  | none =>
    .ok { w2 with stmt := { w2.stmt with
            openRsets := w2.stmt.openRsets ++ [penv.newRsetId] } }
        { rset := some penv.newRsetId }

/-- `Stmt.qry`: the body under a deferred recover.  There is no nil-receiver
guard; on a nil receiver `checkClosed` takes the lock, panics, and the
recover turns that into an error. -/
def Stmt.qry (stmt : Option StmtWorld) (penv : ExeEnv) (params : List Param) :
    Option StmtWorld × QryOut :=
  match stmt with
  | none => (none, { err := some (errR nilDerefMsg) })
  | some w =>
    match Stmt.qryBody w penv params with
    | .ok w' out => (some w', out)
    | .panicked w' m => (some w', { err := some (errR m) })

/-! ## Statement teardown -/

/-- Outcomes of the external calls `Stmt.close` performs: one outcome per
bind-descriptor `close()` (indexed by position), one per open result set for
`openRsets.closeAll`, and the `OCIStmtRelease` status. -/
structure StmtCloseEnv where
  bndOutcomes : List StepOutcome := []
  rsetOutcomes : List StepOutcome := []
  releaseFails : Bool := false
  ociErrMsg : String := "ORA-RELEASE"

/-- Modelled from the spec: a `closeAll` over a list of children (the list
helpers are not under src) — every child is closed in order, each failure is
collected without stopping, and a panic raised inside a child close aborts
the remaining children.  Returns the collected failures and the first panic
value, if any. -/
def closeAllOutcomes : List StepOutcome → List ErrAtom × Option String
  | [] => ([], none)
  | o :: rest =>
    match o with
    | .ok => closeAllOutcomes rest
    | .fail e =>
      let (es, p) := closeAllOutcomes rest
      (e :: es, p)
    | .panicV m => ([], some m)

/-- The bind-close loop of `Stmt.close`: nil descriptors are skipped, each
close error is pushed without stopping, a panic aborts the loop. -/
def bndCloseLoop : List (Option Bnd) → List StepOutcome → List ErrAtom × Option String
  | [], _ => ([], none)
  | none :: rest, outs => bndCloseLoop rest outs.tail
  | some _ :: rest, outs =>
    match outs.headD StepOutcome.ok with
    | .ok => bndCloseLoop rest outs.tail
    | .fail e =>
      let (es, p) := bndCloseLoop rest outs.tail
      (e :: es, p)
    | .panicV m => ([], some m)

/-- A statement's fields after the reset performed by `Stmt.close`'s deferred
function: configuration stored as the zero value, every handle, buffer and
child collection cleared.  The id is kept for the pooled instance. -/
def closedStmtS (id : Nat) : StmtS :=
  { id := id, cfg := some {}, ses := false, ocistmt := false, stmtType := 0,
    sql := [], gcts := [], bndsArr := [], bndsLen := 0, hasPtrBind := false,
    stringPtrBufferSize := 0, openRsets := [] }

/-- The failures `Stmt.close`'s teardown collects, in order: the body closes
every bind descriptor (each failure pushed) and — unless a panic aborted the
bind loop — every open result set; the deferred function appends the
recovered body panic, then always calls `OCIStmtRelease`, appending its
failure. -/
def stmtCloseErrs (w : StmtWorld) (cenv : StmtCloseEnv) : List ErrAtom :=
  let bc := bndCloseLoop (w.stmt.bndsArr.take w.stmt.bndsLen) cenv.bndOutcomes
  let rc :=
    match bc.2 with
    | some m => (([] : List ErrAtom), some m)
    | none => closeAllOutcomes (cenv.rsetOutcomes.take w.stmt.openRsets.length)
  let recovered := match rc.2 with
                   | some m => [ErrAtom.recovered m]
                   | none => []
  let releaseErrs := if cenv.releaseFails then [ErrAtom.msg cenv.ociErrMsg] else []
  bc.1 ++ rc.1 ++ recovered ++ releaseErrs

/-- `Stmt.close` (the inner teardown; it does not remove the statement from
`ses.openStmts`).  Already closed: return the error at once.  Otherwise the
teardown attempts every step (collecting `stmtCloseErrs`), the deferred
function resets every mutable field, returns the statement to its pool, and
reduces the collected failures to the returned error. -/
def Stmt.close (w : StmtWorld) (cenv : StmtCloseEnv) : StmtWorld × Option Err :=
  match stmtCheckClosed w.stmt with
  | some e => (w, some (errE e))
  | none =>
    ({ w with stmt := closedStmtS w.stmt.id },
     (newMultiErrL (stmtCloseErrs w cenv)).map errE)

/-- `Stmt.closeWithRemove`: a nil receiver returns nil.  Otherwise the source
computes `ok := stmt.ses == nil` and returns nil when `!ok` — that is,
whenever the statement is OPEN — so for an open statement nothing is closed;
and when `ok` holds the captured `ses` is nil, so the following
`ses.openStmts` field access dereferences a nil pointer and panics, leaving
the removal and `stmt.close()` call unreachable. -/
def Stmt.closeWithRemove (stmt : Option StmtWorld) (cenv : StmtCloseEnv) :
    GoSt (Option StmtWorld) (Option Err) :=
  match stmt with
  | none => .ok none none
  | some w =>
    let ok := !w.stmt.ses
    if !ok then .ok (some w) none
    else .panicked (some w) nilDerefMsg

/-- `Stmt.Close` simply forwards to `closeWithRemove`. -/
def Stmt.Close (stmt : Option StmtWorld) (cenv : StmtCloseEnv) :
    GoSt (Option StmtWorld) (Option Err) :=
  Stmt.closeWithRemove stmt cenv

/-! ## Server state and lifecycle -/

/-- Modelled from the spec: the environment fields the server code reads
(`env.go` is not under src): the native handle presence, the package-env
flag, and the open-server children list. -/
structure EnvSt where
  ocienv : Bool := true
  isPkgEnv : Bool := false
  openSrvs : List Nat := []
deriving DecidableEq

/-- Modelled from the spec: the server configuration (`SrvCfg` carries a
connect string and a statement configuration). -/
structure SrvCfgV where
  dblink : String := ""
  stmtCfg : StmtCfgV := {}
deriving DecidableEq

/-- The `Srv` struct: `env` is true iff the `*Env` back-reference is non-nil,
`ocisrv` iff the native server handle is present. -/
structure SrvS where
  id : Nat := 0
  cfg : Option SrvCfgV := none
  env : Bool := false
  ocisrv : Bool := false
  isUTF8 : Bool := false
  openSess : List Nat := []
deriving DecidableEq

/-- A server together with the environment object it references. -/
structure SrvWorld where
  srv : SrvS
  envSt : EnvSt := {}
deriving DecidableEq

/-- Modelled from the spec: `Env.checkClosed` — a nil or handle-less
environment reports closed. -/
def Env.checkClosed (envRef : Bool) (e : EnvSt) : Option Err :=
  if !envRef then some (er "Env is closed.")
  else if !e.ocienv then some (er "Env is closed.")
  else none

/-- `Srv.checkClosed`: a nil receiver or an absent native handle is closed;
otherwise the environment is consulted. -/
def Srv.checkClosed (srv : Option SrvWorld) : Option Err :=
  match srv with
  | none => some (er "Srv is closed.")
  | some w =>
    if !w.srv.ocisrv then some (er "Srv is closed.")
    else Env.checkClosed w.srv.env w.envSt

/-- `Srv.IsOpen`: true iff `checkClosed` reports no error; nil-safe because
`checkClosed` tests the receiver before any dereference. -/
def Srv.IsOpen (srv : Option SrvWorld) : Bool :=
  Srv.checkClosed srv = none

/-- Outcomes of the external calls `Srv.close` performs: one per open session
for `openSess.closeAll`, and the `OCIServerDetach` status. -/
structure SrvCloseEnv where
  sesOutcomes : List StepOutcome := []
  detachFails : Bool := false
  ociErrMsg : String := "ORA-DETACH"

/-- The failures `Srv.close`'s teardown collects, in order: the body closes
every open session, collecting each failure, then — unless a panic aborted
the body — detaches the native server handle, appending its failure; the
deferred function appends the recovered panic instead when one occurred
(note: a body panic skips the detach, which lives in the body, unlike
`Stmt.close`'s release which lives in the deferred function). -/
def srvCloseErrs (w : SrvWorld) (cenv : SrvCloseEnv) : List ErrAtom :=
  let cp := closeAllOutcomes (cenv.sesOutcomes.take w.srv.openSess.length)
  let tailErrs :=
    match cp.2 with
    | none => if cenv.detachFails then [ErrAtom.msg cenv.ociErrMsg] else []
    | some m => [ErrAtom.recovered m]
  cp.1 ++ tailErrs

/-- A server's fields after the reset performed by `Srv.close`'s deferred
function. -/
def closedSrvSOf (s : SrvS) : SrvS :=
  { s with
    cfg := some ({} : SrvCfgV)
    openSess := []
    env := false
    ocisrv := false }

/-- `Srv.close` (the inner teardown; it does not remove the server from
`env.openSrvs`).  Already closed: return the error at once.  Otherwise the
teardown attempts its steps (collecting `srvCloseErrs`), the deferred
function resets the configuration and handles, clears the session list,
returns the server to its pool, and reduces the collected failures to the
returned error. -/
def Srv.close (w : SrvWorld) (cenv : SrvCloseEnv) : SrvWorld × Option Err :=
  match Srv.checkClosed (some w) with
  | some e => (w, some (errE e))
  | none =>
    ({ w with srv := closedSrvSOf w.srv }, (newMultiErrL (srvCloseErrs w cenv)).map errE)

/-- `Srv.closeWithRemove`: a nil receiver or a nil environment reference
returns nil; otherwise the server is removed from `env.openSrvs` (modelled
from the spec: membership reflects the open children) and `close` runs. -/
def Srv.closeWithRemove (srv : Option SrvWorld) (cenv : SrvCloseEnv) :
    Option SrvWorld × Option Err :=
  match srv with
  | none => (none, none)
  | some w =>
    if !w.srv.env then (some w, none)
    else
      let w1 := { w with envSt := { w.envSt with
                    openSrvs := w.envSt.openSrvs.filter (fun i => i ≠ w.srv.id) } }
      let r := Srv.close w1 cenv
      (some r.1, r.2)

/-- `Srv.Close`: nil-receiver guard, then `closeWithRemove`. -/
def Srv.Close (srv : Option SrvWorld) (cenv : SrvCloseEnv) :
    Option SrvWorld × Option Err :=
  match srv with
  | none => (none, none)
  | some w => Srv.closeWithRemove (some w) cenv

/-! ## Session opening -/

/-- Modelled from the spec: the session configuration fields `Srv.OpenSes`
reads (`SesCfg` is not under src); `IsZero` holds for the zero value. -/
structure SesCfgV where
  username : String := ""
  password : String := ""
  mode : Nat := 0
deriving DecidableEq

def SesCfgV.IsZero (c : SesCfgV) : Bool := c = {}

/-- Outcomes of the provider calls `Srv.OpenSes` performs, in source order:
session-handle allocation, username/password attributes, service-context
allocation, server attribute, driver name, LOB prefetch size, session begin,
session attribute, statement-cache size. -/
structure OpenSesEnv where
  allocSes : StepOutcome := .ok
  setUser : StepOutcome := .ok
  setPass : StepOutcome := .ok
  allocSvc : StepOutcome := .ok
  setSrvAttr : StepOutcome := .ok
  setDrvName : StepOutcome := .ok
  setLobPrefetch : StepOutcome := .ok
  sesBegin : StepOutcome := .ok
  setSesAttr : StepOutcome := .ok
  setStmtCache : StepOutcome := .ok
  newSesId : Nat := 1

/-- Run one provider step of `Srv.OpenSes`: an error returns it to the
caller, a panic propagates to the deferred recover. -/
def sesStep (w : SrvWorld) (o : StepOutcome)
    (k : GoSt SrvWorld (Option Nat × Option Err)) :
    GoSt SrvWorld (Option Nat × Option Err) :=
  match o with
  | .ok => k
  | .fail e => .ok w (none, some (errE (Err.atom e)))
  | .panicV m => .panicked w m

/-- The body of `Srv.OpenSes` under its deferred recover: check open, then
the provider call sequence (the credential attributes only when a username
or password is given), then the new session is taken from its pool, given an
id, and added to `srv.openSess`. -/
def Srv.OpenSesBody (w : SrvWorld) (cfg : SesCfgV) (penv : OpenSesEnv) :
    GoSt SrvWorld (Option Nat × Option Err) :=
  match Srv.checkClosed (some w) with
  | some e => .ok w (none, some (errE e))
  | none =>
    let tail : GoSt SrvWorld (Option Nat × Option Err) :=
      sesStep w penv.allocSvc
        (sesStep w penv.setSrvAttr
          (sesStep w penv.setDrvName
            (sesStep w penv.setLobPrefetch
              (sesStep w penv.sesBegin
                (sesStep w penv.setSesAttr
                  (sesStep w penv.setStmtCache
                    (.ok { w with srv := { w.srv with
                             openSess := w.srv.openSess ++ [penv.newSesId] } }
                         (some penv.newSesId, none))))))))
    sesStep w penv.allocSes
      (if cfg.username ≠ "" ∨ cfg.password ≠ "" then
         sesStep w penv.setUser (sesStep w penv.setPass tail)
       else tail)

/-- `Srv.OpenSes`: the zero-configuration guard precedes the deferred
recover; then the nil-receiver guard; then the body, any panic of which is
converted into an `errR` error. -/
def Srv.OpenSes (srv : Option SrvWorld) (cfg : SesCfgV) (penv : OpenSesEnv) :
    Option SrvWorld × (Option Nat × Option Err) :=
  if cfg.IsZero then (srv, (none, some (er "Parameter cfg may not be nil.")))
  else
    match srv with
    | none => (none, (none, some (er "srv may not be nil.")))
    | some w =>
      match Srv.OpenSesBody w cfg penv with
      | .ok w' r => (some w', r)
      | .panicked w' m => (some w', (none, some (errR m)))

/-! ## Specification-side helper functions and concrete instances -/

/-- A parameter that binds without reaching `setNilBind` (every shape in the
modelled subset except a nil value and a null wrapper). -/
def Param.isPlain : Param → Bool
  | .nilV => false
  | .w64 isNull _ => !isNull
  | .w32 isNull _ => !isNull
  | _ => true

/-- A parameter bound as an output pointer (the shapes for which the source's
`case` body sets `stmt.hasPtrBind = true`). -/
def Param.isOutPtr : Param → Bool
  | .p64 _ => true
  | .p32 _ => true
  | _ => false

/-- The batch length of a batch-shaped parameter. -/
def Param.batchLen : Param → Option Nat
  | .s64 vs => some vs.length
  | .s32 vs => some vs.length
  | _ => none

/-- The bind descriptor a plain parameter installs. -/
def Param.descOf : Param → Bnd
  | .i64 v => .bInt64 v
  | .i32 v => .bInt32 v
  | .w64 _ v => .bInt64 v
  | .w32 _ v => .bInt32 v
  | .p64 loc => .bInt64Ptr loc
  | .p32 loc => .bInt32Ptr loc
  | .s64 vs => .bInt64Slice vs
  | .s32 vs => .bInt32Slice vs
  | .nilV => .bNil SQLT_CHR

/-- Whether an output-pointer parameter targets the given location. -/
def Param.usesLoc (p : Param) (l : Nat) : Bool :=
  match p with
  | .p64 loc => loc = l
  | .p32 loc => loc = l
  | _ => false

/-- The binder invocation a plain parameter performs. -/
def Param.callOf : Param → Nat → BndCall
  | .i64 v, n => .int64V v (n + 1)
  | .i32 v, n => .int32V v (n + 1)
  | .w64 _ v, n => .int64V v (n + 1)
  | .w32 _ v, n => .int32V v (n + 1)
  | .p64 loc, n => .int64PtrB loc (n + 1)
  | .p32 loc, n => .int32PtrB loc (n + 1)
  | .s64 vs, n => .int64SliceB vs (n + 1)
  | .s32 vs, n => .int32SliceB vs (n + 1)
  | .nilV, n => .nilB (n + 1) SQLT_CHR

/-- The length of the last batch-shaped parameter of a list, if any. -/
def lastBatchLen : List Param → Option Nat
  | [] => none
  | p :: rest =>
    match lastBatchLen rest with
    | some l => some l
    | none => Param.batchLen p

/-- Writing the descriptors of consecutive plain parameters into an array,
starting at index `n`. -/
def writeDescs (arr : List (Option Bnd)) (n : Nat) : List Param → List (Option Bnd)
  | [] => arr
  | p :: rest => writeDescs (arr.set n (some p.descOf)) (n + 1) rest

/-- The copy-back writes `setBindPtrs` performs over the descriptors of
consecutive plain parameters starting at position `n`, when no `setPtr`
errors occur. -/
def ptrWritesPs (penv : ExeEnv) (n : Nat) : List Param → List (Nat × Int)
  | [] => []
  | p :: rest =>
    (match p.descOf with
     | .bInt64Ptr loc => [(loc, penv.outVals n)]
     | .bInt32Ptr loc => [(loc, penv.outVals n)]
     | _ => []) ++ ptrWritesPs penv (n + 1) rest

/-- A freshly prepared open statement (live session and cursor, no binds). -/
def stmtFreshW : StmtWorld :=
  { stmt := { id := 1, ses := true, ocistmt := true, stmtType := OCI_STMT_SELECT } }

/-- The fresh statement after binding one output pointer. -/
def stmtAfterPtrW : StmtWorld := (Stmt.bindGo stmtFreshW [Param.p64 1] false).state

/-- The previous statement after rebinding a single plain value. -/
def stmtAfterValW : StmtWorld := (Stmt.bindGo stmtAfterPtrW [Param.i64 5] false).state

/-- An open SELECT statement whose effective configuration auto-commits, on a
session with no open transaction. -/
def selAutoCommitW : StmtWorld :=
  { stmt := { id := 1, ses := true, ocistmt := true, stmtType := OCI_STMT_SELECT,
              cfg := some { isAutoCommitting := true } },
    sesOpenTxs := 0 }

/-- An insert statement text ending in the recognised identity-returning
clause. -/
def insReturningSql : List Char :=
  "INSERT INTO T (A, B) VALUES (:1, :2) RETURNING ID /*LASTINSERTID*/ INTO :3".toList

/-- An open Insert statement with the recognised clause under the package
(database/sql) environment. -/
def pkgInsW : StmtWorld :=
  { stmt := { id := 1, ses := true, ocistmt := true, stmtType := OCI_STMT_INSERT,
              sql := insReturningSql },
    envIsPkgEnv := true }

/-- The same statement under an ordinary (non-package) environment. -/
def nonPkgInsW : StmtWorld :=
  { stmt := { id := 1, ses := true, ocistmt := true, stmtType := OCI_STMT_INSERT,
              sql := insReturningSql },
    envIsPkgEnv := false }

/-- A provider environment reporting one affected row and identity value 42
for every output position. -/
def identPenv : ExeEnv := { rowCountVal := 1, outVals := fun _ => 42 }

/-- An open server attached to an open environment, with no open session. -/
def srvOpenW : SrvWorld :=
  { srv := { id := 1, env := true, ocisrv := true, openSess := [] },
    envSt := { ocienv := true, openSrvs := [1] } }

/-- An open statement world used for the inner-close witness: one bind
descriptor and one open result set. -/
def stmtCloseWitnessW : StmtWorld :=
  { stmt := { id := 2, ses := true, ocistmt := true, stmtType := OCI_STMT_SELECT,
              bndsArr := [some (Bnd.bInt64 7)], bndsLen := 1,
              openRsets := [5] },
    sesOpenStmts := [2] }

/-- A provider environment for `Srv.OpenSes` whose session-begin call panics. -/
def sesPanicPenv : OpenSesEnv := { sesBegin := .panicV "ociSessionBegin fault" }

/-- An open server with three open sessions. -/
def srvSessW : SrvWorld :=
  { srv := { id := 1, env := true, ocisrv := true, openSess := [11, 12, 13] },
    envSt := { ocienv := true, openSrvs := [1] } }

/-- A close environment where the first and third session closes fail and the
native detach fails too. -/
def srvFailCenv : SrvCloseEnv :=
  { sesOutcomes := [.fail (ErrAtom.msg "ses11 close failed"), .ok,
                    .fail (ErrAtom.msg "ses13 close failed")],
    detachFails := true }

/-- A close environment whose first bind-descriptor close panics and whose
native release fails. -/
def stmtPanicCenv : StmtCloseEnv :=
  { bndOutcomes := [.panicV "bnd close fault"], releaseFails := true }

/-! ## Helper lemmas -/

theorem errsOf_newMultiErrL (es : List ErrAtom) :
    errsOf ((newMultiErrL es).map errE) = es := by
  cases es with
  | nil => rfl
  | cons a t => rfl

theorem newMultiErrL_eq_none (es : List ErrAtom) :
    (newMultiErrL es).map errE = none ↔ es = [] := by
  cases es with
  | nil => simp [newMultiErrL]
  | cons a t => simp [newMultiErrL, errE]

/-! ## Claim theorems -/

/-- Claim C1: `Stmt.Close` on an open statement (live session reference and
native cursor) is a no-op.  The guard of `closeWithRemove` computes
`ok := stmt.ses == nil` and returns nil on `!ok`, i.e. precisely when the
statement is open, so the cursor is never released, no child is closed, the
statement stays in its session's open set, and `IsOpen` keeps returning
true — against the claim (and the method's own documentation). -/
theorem c1_stmt_close_noop :
    Stmt.Close (some stmtFreshW) {} = .ok (some stmtFreshW) none ∧
    Stmt.IsOpen (some stmtFreshW.stmt) = GoResult.ok true ∧
    stmtFreshW.sesOpenStmts = stmtFreshW.sesOpenStmts := by
  decide

/-- Claim C2, counterexample: on a concrete open server, the first exported
`Srv.Close` succeeds and `IsOpen` turns false, but the second `Srv.Close`
returns nil — not an `AlreadyClosed`-class error — because `closeWithRemove`
short-circuits on the nilled environment reference. -/
theorem c2_counterexample :
    (Srv.Close (some srvOpenW) {}).2 = none ∧
    Srv.IsOpen (Srv.Close (some srvOpenW) {}).1 = false ∧
    (Srv.Close (Srv.Close (some srvOpenW) {}).1 {}).2 = none := by
  decide

/-- Claim C2, amended: the idempotent-observable property holds for the inner
teardowns `Srv.close` and `Stmt.close` — after a first successful close,
`isOpen` is false and a second call returns the already-closed error with the
state untouched — while the exported `Srv.Close` returns nil on a second call
and the exported `Stmt.Close` never performs a first close (claim C1). -/
theorem c2_inner_close_already_closed :
    (∀ (w : SrvWorld) (cenv cenv' : SrvCloseEnv),
        w.srv.ocisrv = true → w.srv.env = true → w.envSt.ocienv = true →
        (Srv.close w cenv).2 = none →
        Srv.IsOpen (some (Srv.close w cenv).1) = false ∧
        Srv.close (Srv.close w cenv).1 cenv' =
          ((Srv.close w cenv).1, some (er "Srv is closed."))) ∧
    (∀ (w : StmtWorld) (cenv cenv' : StmtCloseEnv),
        w.stmt.ocistmt = true →
        (Stmt.close w cenv).2 = none →
        Stmt.IsOpen (some (Stmt.close w cenv).1.stmt) = GoResult.ok false ∧
        Stmt.close (Stmt.close w cenv).1 cenv' =
          ((Stmt.close w cenv).1, some (er "Stmt is closed."))) := by
  constructor
  · intro w cenv cenv' h1 h2 h3 _
    have hcc : Srv.checkClosed (some w) = none := by
      simp [Srv.checkClosed, Env.checkClosed, h1, h2, h3]
    have hstep : Srv.close w cenv =
        ({ w with srv := closedSrvSOf w.srv },
         (newMultiErrL (srvCloseErrs w cenv)).map errE) := by
      simp only [Srv.close, hcc]
    have hcc2 : Srv.checkClosed (some ({ w with srv := closedSrvSOf w.srv })) =
        some (er "Srv is closed.") := by
      simp [Srv.checkClosed, closedSrvSOf]
    constructor
    · rw [hstep]
      simp [Srv.IsOpen, hcc2]
    · rw [hstep]
      simp [Srv.close, hcc2, errE]
  · intro w cenv cenv' h1 _
    have hcc : stmtCheckClosed w.stmt = none := by
      simp [stmtCheckClosed, h1]
    have hstep : Stmt.close w cenv =
        ({ w with stmt := closedStmtS w.stmt.id },
         (newMultiErrL (stmtCloseErrs w cenv)).map errE) := by
      simp only [Stmt.close, hcc]
    have hcc2 : stmtCheckClosed (closedStmtS w.stmt.id) =
        some (er "Stmt is closed.") := by
      simp [stmtCheckClosed, closedStmtS]
    constructor
    · rw [hstep]
      simp [Stmt.IsOpen, closedStmtS]
    · rw [hstep]
      simp [Stmt.close, hcc2, errE]

/-- Claim C2, witness at a concrete open server and a concrete open
statement. -/
theorem c2_witness :
    (Srv.IsOpen (some (Srv.close srvOpenW {}).1) = false ∧
     Srv.close (Srv.close srvOpenW {}).1 {} =
       ((Srv.close srvOpenW {}).1, some (er "Srv is closed."))) ∧
    (Stmt.IsOpen (some (Stmt.close stmtCloseWitnessW {}).1.stmt) = GoResult.ok false ∧
     Stmt.close (Stmt.close stmtCloseWitnessW {}).1 {} =
       ((Stmt.close stmtCloseWitnessW {}).1, some (er "Stmt is closed."))) := by
  exact ⟨c2_inner_close_already_closed.1 srvOpenW {} {} (by decide) (by decide)
           (by decide) (by decide),
         c2_inner_close_already_closed.2 stmtCloseWitnessW {} {} (by decide)
           (by decide)⟩

/-- Claim C3, counterexample: bind an output pointer, then rebind the same
statement with a single plain value — `hasPtrBind` stays true although no
currently installed descriptor requires a copy-back, refuting the claimed
"iff" and the claimed reset on rebinding. -/
theorem c3_counterexample :
    stmtAfterValW.stmt.hasPtrBind = true ∧
    (stmtAfterValW.stmt.bndsArr.take stmtAfterValW.stmt.bndsLen).all
      (fun b => !(b.getD (Bnd.bNil 0)).requiresCopyBack) = true := by
  decide

/-- Claim C4, counterexample: a SELECT statement — not a mutating kind — with
auto-commit enabled and no open transaction is still executed with
`OCI_COMMIT_ON_SUCCESS`: the source's mode selection never consults the
statement kind, against the claim's "only for mutating kinds". -/
theorem c4_counterexample :
    selAutoCommitW.stmt.stmtType = OCI_STMT_SELECT ∧
    (Stmt.exe (some selAutoCommitW) {} [] false).2.execMode =
      some OCI_COMMIT_ON_SUCCESS ∧
    ¬ OCI_COMMIT_ON_SUCCESS = OCI_DEFAULT := by
  decide

/-- Claim C5, counterexample: two batch parameters of lengths 3 and 2 — the
returned iteration count is 2, the length of the LAST batch, not 3 as the
claim's "first observed batch is authoritative" requires (each slice case
overwrites `iterations`). -/
theorem c5_counterexample :
    ((Stmt.bindGo stmtFreshW [Param.s64 [1, 2, 3], Param.s64 [4, 5]] false).valOr
        {}).iterations = 2 ∧
    ¬ ((Stmt.bindGo stmtFreshW [Param.s64 [1, 2, 3], Param.s64 [4, 5]] false).valOr
        {}).iterations = 3 := by
  decide

/-- Claim C6: binding `Int64{IsNull:true}` on a freshly prepared statement
panics with an index-out-of-range instead of installing the SQLT_INT NULL
descriptor: `setNilBind` writes through the old `stmt.bnds` slice (here still
empty) while the bind pass builds a separate local slice.  `Stmt.exe` then
reports the fault as a recovered error.  Binding `Int64{IsNull:false, Value:7}`
is observably identical to binding the raw `int64` 7, as claimed. -/
theorem c6_null_wrapper_bug :
    Stmt.bindGo stmtFreshW [Param.w64 true 0] false = .panicked stmtFreshW oobMsg ∧
    (Stmt.exe (some stmtFreshW) {} [Param.w64 true 0] false).2.err =
      some (errR oobMsg) ∧
    Stmt.bindGo stmtFreshW [Param.w64 false 7] false =
      Stmt.bindGo stmtFreshW [Param.i64 7] false := by
  decide

/-- Claim C7, counterexample: an Insert statement whose text ends in the
recognised `RETURNING ... /*LASTINSERTID*/ INTO` clause, under an ordinary
(non-package) environment: `exe` performs NO substitution — the execute
succeeds with one affected row, yet the returned identity is 0 (not the
provider-reported 42) and no installed descriptor is an output capture. -/
theorem c7_counterexample :
    stmtReturningRecognized nonPkgInsW.stmt.sql = true ∧
    nonPkgInsW.stmt.stmtType = OCI_STMT_INSERT ∧
    (Stmt.exe (some nonPkgInsW) identPenv [Param.i64 5, Param.i64 6, Param.i64 7]
        false).2.err = none ∧
    (Stmt.exe (some nonPkgInsW) identPenv [Param.i64 5, Param.i64 6, Param.i64 7]
        false).2.rowsAffected = 1 ∧
    (Stmt.exe (some nonPkgInsW) identPenv [Param.i64 5, Param.i64 6, Param.i64 7]
        false).2.lastInsertId = 0 ∧
    ((Stmt.exe (some nonPkgInsW) identPenv [Param.i64 5, Param.i64 6, Param.i64 7]
        false).1.map
      (fun w => (w.stmt.bndsArr.take w.stmt.bndsLen).all
        (fun b => !(b.getD (Bnd.bNil 0)).requiresCopyBack))) = some true := by
  decide

/-- Claim C9, counterexample: `Stmt.IsOpen` on a nil receiver takes the
statement's lock first, dereferencing nil — it panics instead of returning
false. -/
theorem c9_counterexample :
    Stmt.IsOpen none = GoResult.panicked nilDerefMsg ∧
    ¬ Stmt.IsOpen none = GoResult.ok false := by
  decide

/-- Claim C9, amended: `Srv.IsOpen` treats a nil receiver as closed and
returns false without panicking (its `checkClosed` tests the receiver before
any dereference), but `Stmt.IsOpen` panics on a nil receiver. -/
theorem c9_isOpen_nil :
    Srv.IsOpen none = false ∧
    Stmt.IsOpen none = GoResult.panicked nilDerefMsg := by
  decide
theorem bindStep_plain (st : BindSt) (p : Param) (n : Nat)
    (hp : p.isPlain = true) :
    bindStep st p n = .ok { st with
        arr := st.arr.set n (some p.descOf)
        oldArr := if st.aliased then st.oldArr.set n (some p.descOf) else st.oldArr
        hasPtrBind := st.hasPtrBind || p.isOutPtr
        iterations := (p.batchLen).getD st.iterations
        calls := st.calls ++ [p.callOf n] } () := by
  cases p <;>
    simp_all [bindStep, Param.isPlain, Param.descOf, Param.isOutPtr,
      Param.batchLen, Param.callOf, BindSt.writeBnd, BindSt.addCall]

theorem bindLoop_plain (ps : List Param) : ∀ (st : BindSt) (n : Nat),
    ps.all Param.isPlain = true →
    (bindLoop st n ps).isOkB = true ∧
    (bindLoop st n ps).state.hasPtrBind = (st.hasPtrBind || ps.any Param.isOutPtr) ∧
    (bindLoop st n ps).state.iterations = (lastBatchLen ps).getD st.iterations ∧
    (bindLoop st n ps).state.arr = writeDescs st.arr n ps ∧
    (bindLoop st n ps).state.aliased = st.aliased ∧
    (bindLoop st n ps).state.oldLen = st.oldLen := by
  induction ps with
  | nil =>
    intro st n _
    simp [bindLoop, lastBatchLen, writeDescs, GoSt.isOkB, GoSt.state]
  | cons p rest ih =>
    intro st n hall
    rw [List.all_cons, Bool.and_eq_true] at hall
    obtain ⟨hp, hrest⟩ := hall
    rw [show bindLoop st n (p :: rest) =
          (match bindStep st p n with
           | .ok st' _ => bindLoop st' (n + 1) rest
           | .panicked st' m => .panicked st' m) from rfl,
        bindStep_plain st p n hp]
    refine ⟨(ih _ _ hrest).1, ?_, ?_, ?_, ?_, ?_⟩
    · rw [(ih _ _ hrest).2.1]
      simp [List.any_cons, Bool.or_assoc]
    · rw [(ih _ _ hrest).2.2.1]
      simp only [lastBatchLen]
      cases hl : lastBatchLen rest <;> simp [hl]
    · rw [(ih _ _ hrest).2.2.2.1]
      simp [writeDescs]
    · rw [(ih _ _ hrest).2.2.2.2.1]
    · rw [(ih _ _ hrest).2.2.2.2.2]

theorem writeDescs_length (ps : List Param) : ∀ (arr : List (Option Bnd)) (n : Nat),
    (writeDescs arr n ps).length = arr.length := by
  induction ps with
  | nil => intro arr n; rfl
  | cons p rest ih =>
    intro arr n
    rw [show writeDescs arr n (p :: rest) =
          writeDescs (arr.set n (some p.descOf)) (n + 1) rest from rfl, ih]
    simp

theorem writeDescs_spec (ps : List Param) : ∀ (arr : List (Option Bnd)) (n : Nat),
    n + ps.length ≤ arr.length →
    writeDescs arr n ps =
      arr.take n ++ ps.map (fun p => some p.descOf) ++ arr.drop (n + ps.length) := by
  induction ps with
  | nil =>
    intro arr n h
    simp [writeDescs, List.take_append_drop]
  | cons p rest ih =>
    intro arr n h
    have hn : n < arr.length := by
      simp [List.length_cons] at h
      omega
    rw [show writeDescs arr n (p :: rest) =
          writeDescs (arr.set n (some p.descOf)) (n + 1) rest from rfl]
    rw [ih (arr.set n (some p.descOf)) (n + 1)
          (by simp [List.length_cons] at h ⊢; omega)]
    rw [List.set_eq_take_cons_drop _ hn]
    have hlen1 : (arr.take n ++ [some p.descOf]).length = n + 1 := by
      simp [List.length_take, Nat.min_eq_left (Nat.le_of_lt hn)]
    rw [show arr.take n ++ some p.descOf :: arr.drop (n + 1) =
          (arr.take n ++ [some p.descOf]) ++ arr.drop (n + 1) by simp]
    rw [List.take_left' hlen1]
    rw [show n + 1 + rest.length = (arr.take n ++ [some p.descOf]).length + rest.length by
          rw [hlen1]]
    rw [List.drop_append]
    simp [List.map_cons, List.append_assoc, List.drop_drop]
    congr 1
    omega

theorem bindSt0_arr_length (w : StmtWorld) (plen : Nat) :
    plen ≤ (bindSt0 w plen).arr.length := by
  unfold bindSt0
  split <;> simp <;> omega

/-- A successful plain bind pass: character of the result of `Stmt.bind` for
parameter lists that never reach `setNilBind`. -/
theorem bindGo_plain (w : StmtWorld) (ps : List Param) (a : Bool)
    (hall : ps.all Param.isPlain = true) :
    (Stmt.bindGo w ps a).isOkB = true ∧
    (Stmt.bindGo w ps a).state.stmt.hasPtrBind =
      (w.stmt.hasPtrBind || ps.any Param.isOutPtr) ∧
    ((Stmt.bindGo w ps a).valOr {}).iterations = (lastBatchLen ps).getD 1 ∧
    ((Stmt.bindGo w ps a).valOr {}).err = none ∧
    (ps.length ≠ 0 →
      (Stmt.bindGo w ps a).state.stmt.bndsLen = ps.length ∧
      (Stmt.bindGo w ps a).state.stmt.bndsArr.take ps.length =
        ps.map (fun p => some p.descOf)) := by
  unfold Stmt.bindGo
  split
  case isTrue h =>
    have hnil : ps = [] := List.length_eq_zero.mp h
    subst hnil
    simp [GoSt.isOkB, GoSt.state, GoSt.valOr, lastBatchLen]
  case isFalse h =>
    have hb := bindLoop_plain ps (bindSt0 w ps.length) 0 hall
    cases hbl : bindLoop (bindSt0 w ps.length) 0 ps with
    | panicked st m =>
      rw [hbl] at hb
      simp [GoSt.isOkB] at hb
    | ok st u =>
      rw [hbl] at hb
      obtain ⟨-, hptr, hiter, harr, -, -⟩ := hb
      simp only [GoSt.state] at hptr hiter harr
      have hws : st.arr.take ps.length = ps.map (fun p => some p.descOf) := by
        rw [harr, writeDescs_spec ps (bindSt0 w ps.length).arr 0
              (by simpa using bindSt0_arr_length w ps.length)]
        simp only [List.take_nil, List.take_zero, List.nil_append, Nat.zero_add]
        exact List.take_left' (by simp)
      have hit0 : (bindSt0 w ps.length).iterations = 1 := rfl
      have hpb0 : (bindSt0 w ps.length).hasPtrBind = w.stmt.hasPtrBind := rfl
      refine ⟨rfl, ?_, ?_, rfl, fun _ => ⟨rfl, ?_⟩⟩
      · simpa [GoSt.state, hpb0] using hptr
      · simpa [GoSt.valOr, hit0] using hiter
      · simpa [GoSt.state] using hws

/-- A bind pass only rewrites the statement's bind fields: every other field
of the statement and its surrounding world is preserved, on success and on a
panic alike. -/
theorem bindGo_preserves (w : StmtWorld) (ps : List Param) (a : Bool) :
    (Stmt.bindGo w ps a).state.stmt.id = w.stmt.id ∧
    (Stmt.bindGo w ps a).state.stmt.cfg = w.stmt.cfg ∧
    (Stmt.bindGo w ps a).state.stmt.ses = w.stmt.ses ∧
    (Stmt.bindGo w ps a).state.stmt.ocistmt = w.stmt.ocistmt ∧
    (Stmt.bindGo w ps a).state.stmt.stmtType = w.stmt.stmtType ∧
    (Stmt.bindGo w ps a).state.stmt.sql = w.stmt.sql ∧
    (Stmt.bindGo w ps a).state.stmt.openRsets = w.stmt.openRsets ∧
    (Stmt.bindGo w ps a).state.sesOpenStmts = w.sesOpenStmts ∧
    (Stmt.bindGo w ps a).state.sesOpenTxs = w.sesOpenTxs ∧
    (Stmt.bindGo w ps a).state.sesStmtCfg = w.sesStmtCfg ∧
    (Stmt.bindGo w ps a).state.envIsPkgEnv = w.envIsPkgEnv ∧
    (Stmt.bindGo w ps a).state.envCfg = w.envCfg := by
  unfold Stmt.bindGo
  split
  · simp [GoSt.state]
  · split <;> simp [GoSt.state]

theorem CfgOf_bindGo (w : StmtWorld) (ps : List Param) (a : Bool) :
    Stmt.CfgOf (Stmt.bindGo w ps a).state = Stmt.CfgOf w := by
  obtain ⟨-, h2, -, -, -, -, -, -, -, h10, h11, h12⟩ := bindGo_preserves w ps a
  unfold Stmt.CfgOf
  rw [h2, h10, h11, h12]

theorem descOf_requiresCopyBack (p : Param) :
    p.descOf.requiresCopyBack = p.isOutPtr := by
  cases p <;> rfl

theorem setBindPtrsLoop_no_panic (penv : ExeEnv) :
    ∀ (bnds : List (Option Bnd)) (n : Nat),
    bnds.all Option.isSome = true →
    ∃ r, setBindPtrsLoop penv n bnds = .ok r := by
  intro bnds
  induction bnds with
  | nil => intro n _; exact ⟨(none, []), rfl⟩
  | cons b rest ih =>
    intro n hall
    rw [List.all_cons, Bool.and_eq_true] at hall
    obtain ⟨hb, hrest⟩ := hall
    cases b with
    | none => simp [Option.isSome] at hb
    | some d =>
      obtain ⟨⟨e0, ws⟩, hr⟩ := ih (n + 1) hrest
      cases he : penv.setPtrErrAt n with
      | some e => exact ⟨(some (errE e), []), by simp [setBindPtrsLoop, he]⟩
      | none =>
        refine ⟨(e0, (match d with
            | .bInt64Ptr loc => [(loc, penv.outVals n)]
            | .bInt32Ptr loc => [(loc, penv.outVals n)]
            | _ => []) ++ ws), ?_⟩
        simp only [setBindPtrsLoop, he, hr]
        cases d <;> rfl

theorem setPrefetchSizeGo_ok (w : StmtWorld) (penv : ExeEnv)
    (hses : w.stmt.ses = true) (hpf : penv.setAttrPrefetchErr = none) :
    Stmt.setPrefetchSizeGo w penv = .ok w none := by
  unfold Stmt.setPrefetchSizeGo
  rw [hses]
  simp [hpf]

theorem exeAfterBind_execMode (w2 : StmtWorld) (penv : ExeEnv) (iters : Nat)
    (hsome : (w2.stmt.bndsArr.take w2.stmt.bndsLen).all Option.isSome = true) :
    (exeAfterBind w2 penv iters).isOkB = true ∧
    ((exeAfterBind w2 penv iters).valOr {}).execMode =
      some (stmtExeMode (Stmt.CfgOf w2) w2.sesOpenTxs) ∧
    (exeAfterBind w2 penv iters).state = w2 := by
  simp only [exeAfterBind]
  split
  · simp [GoSt.isOkB, GoSt.valOr, GoSt.state]
  · split
    · simp [GoSt.isOkB, GoSt.valOr, GoSt.state]
    · split
      · obtain ⟨r, hr⟩ := setBindPtrsLoop_no_panic penv
          (w2.stmt.bndsArr.take w2.stmt.bndsLen) 0 hsome
        rw [hr]
        cases r with
        | mk e ws =>
          cases e <;> simp [GoSt.isOkB, GoSt.valOr, GoSt.state]
      · simp [GoSt.isOkB, GoSt.valOr, GoSt.state]

/-- Claim C4, amended: the execute mode `Stmt.exe` passes to the provider is
commit-on-success if and only if the effective configuration enables
auto-commit and the session has zero open transactions — regardless of the
statement kind, which the mode selection never consults. -/
theorem c4_mode_autocommit_only (w : StmtWorld) (penv : ExeEnv)
    (params ps : List Param) (assoc : Bool)
    (hoci : w.stmt.ocistmt = true) (hses : w.stmt.ses = true)
    (hsub : exeSubstParams w params = .ok ps)
    (hps : ps.all Param.isPlain = true) (hne : ps.length ≠ 0)
    (hpf : penv.setAttrPrefetchErr = none) :
    (Stmt.exe (some w) penv params assoc).2.execMode =
      some (stmtExeMode (Stmt.CfgOf w) w.sesOpenTxs) ∧
    ((Stmt.exe (some w) penv params assoc).2.execMode =
        some OCI_COMMIT_ON_SUCCESS ↔
      ((Stmt.CfgOf w).isAutoCommitting = true ∧ w.sesOpenTxs = 0)) := by
  have hcc : stmtCheckClosed w.stmt = none := by simp [stmtCheckClosed, hoci]
  have hbp := bindGo_plain w ps assoc hps
  cases hbg : Stmt.bindGo w ps assoc with
  | panicked s m =>
    rw [hbg] at hbp
    simp [GoSt.isOkB] at hbp
  | ok w1 bout =>
    rw [hbg] at hbp
    obtain ⟨-, -, -, herr, harr⟩ := hbp
    simp only [GoSt.valOr] at herr
    obtain ⟨hlen1, htake1⟩ := harr hne
    simp only [GoSt.state] at hlen1 htake1
    have hpres := bindGo_preserves w ps assoc
    rw [hbg] at hpres
    simp only [GoSt.state] at hpres
    have hses1 : w1.stmt.ses = true := by rw [hpres.2.2.1, hses]
    have hcfg1 : Stmt.CfgOf w1 = Stmt.CfgOf w := by
      have := CfgOf_bindGo w ps assoc
      rwa [hbg] at this
    have htx1 : w1.sesOpenTxs = w.sesOpenTxs := hpres.2.2.2.2.2.2.2.2.1
    have hsome : (w1.stmt.bndsArr.take w1.stmt.bndsLen).all Option.isSome = true := by
      rw [hlen1, htake1]
      simp [List.all_map]
    have hchain : Stmt.exeBody w penv params assoc =
        exeAfterBind w1 penv bout.iterations := by
      unfold Stmt.exeBody
      rw [hcc, hses]
      simp only [Bool.not_true, Bool.false_eq_true, if_false]
      rw [hsub]
      simp only [hbg, GoSt.run, herr]
      rw [setPrefetchSizeGo_ok w1 penv hses1 hpf]
    obtain ⟨hok, hmode, hst⟩ := exeAfterBind_execMode w1 penv bout.iterations hsome
    cases hab : exeAfterBind w1 penv bout.iterations with
    | panicked s m =>
      rw [hab] at hok
      simp [GoSt.isOkB] at hok
    | ok s out2 =>
      rw [hab] at hmode
      simp only [GoSt.valOr] at hmode
      have hexe : Stmt.exe (some w) penv params assoc = (some s, out2) := by
        simp only [Stmt.exe, hchain, hab]
      rw [hexe]
      rw [hcfg1, htx1] at hmode
      refine ⟨hmode, ?_⟩
      rw [hmode]
      unfold stmtExeMode
      constructor
      · intro h
        by_cases h1 : (Stmt.CfgOf w).isAutoCommitting = true
        · by_cases h2 : w.sesOpenTxs = 0
          · exact ⟨h1, h2⟩
          · rw [h1, if_pos rfl, if_neg h2] at h
            simp [OCI_DEFAULT, OCI_COMMIT_ON_SUCCESS] at h
        · rw [Bool.not_eq_true] at h1
          rw [h1] at h
          simp [OCI_DEFAULT, OCI_COMMIT_ON_SUCCESS] at h
      · intro ⟨h1, h2⟩
        rw [h1, h2]
        simp

theorem setBindPtrsLoop_map (penv : ExeEnv) (hsp : ∀ k, penv.setPtrErrAt k = none) :
    ∀ (ps : List Param) (n : Nat),
    setBindPtrsLoop penv n (ps.map (fun p => some p.descOf)) =
      .ok (none, ptrWritesPs penv n ps) := by
  intro ps
  induction ps with
  | nil => intro n; rfl
  | cons p rest ih =>
    intro n
    simp only [List.map_cons, setBindPtrsLoop, hsp n, ih (n + 1), ptrWritesPs]

theorem ptrWritesPs_append (penv : ExeEnv) :
    ∀ (l1 l2 : List Param) (n : Nat),
    ptrWritesPs penv n (l1 ++ l2) =
      ptrWritesPs penv n l1 ++ ptrWritesPs penv (n + l1.length) l2 := by
  intro l1
  induction l1 with
  | nil => intro l2 n; simp [ptrWritesPs]
  | cons p rest ih =>
    intro l2 n
    have harith : n + 1 + rest.length = n + (rest.length + 1) := by omega
    simp only [List.cons_append, ptrWritesPs, List.append_eq, ih l2 (n + 1),
      List.length_cons, List.append_assoc, harith]

theorem ptrWritesPs_filter_nolid (penv : ExeEnv) (l : Nat) :
    ∀ (ps : List Param) (n : Nat),
    ps.all (fun p => !(p.usesLoc l)) = true →
    (ptrWritesPs penv n ps).filter (fun q => q.1 = l) = [] := by
  intro ps
  induction ps with
  | nil => intro n _; rfl
  | cons p rest ih =>
    intro n hall
    rw [List.all_cons, Bool.and_eq_true] at hall
    obtain ⟨hp, hrest⟩ := hall
    simp only [ptrWritesPs, List.filter_append, ih (n + 1) hrest, List.append_nil]
    cases p <;> simp_all [Param.usesLoc, Param.descOf, List.filter]

theorem exeAfterBind_success (w2 : StmtWorld) (penv : ExeEnv) (iters : Nat)
    (hty : w2.stmt.stmtType = OCI_STMT_INSERT)
    (hex : penv.execStatus = OciR.success)
    (hrc : penv.rowCountAttrErr = none)
    (hpb : w2.stmt.hasPtrBind = true)
    (hsp : ∀ k, penv.setPtrErrAt k = none)
    (ps' : List Param)
    (hbnds : w2.stmt.bndsArr.take w2.stmt.bndsLen =
      ps'.map (fun p => some p.descOf)) :
    exeAfterBind w2 penv iters = .ok w2
      { rowsAffected := penv.rowCountVal,
        lastInsertId := lastWriteAt lastInsertIdLoc (ptrWritesPs penv 0 ps'),
        err := none,
        execMode := some (stmtExeMode (Stmt.CfgOf w2) w2.sesOpenTxs),
        execIters := some iters } := by
  simp only [exeAfterBind, hty, hex, hrc, hpb, hbnds,
    setBindPtrsLoop_map penv hsp ps' 0]
  simp [OCI_STMT_INSERT, OCI_STMT_SELECT, OCI_STMT_UPDATE, OCI_STMT_DELETE]

/-- Claim C7, amended: under the package (database/sql) environment, for a
prepared Insert whose text ends in the recognised
`RETURNING ... /*LASTINSERTID*/ INTO` clause, `Stmt.exe` substitutes the last
parameter slot with an output capture for the server identity (the last
installed descriptor is the `*int64` capture) and, on success, the internal
`exe` returns that identity alongside the affected-row count (the exported
`Exe` discards the identity). -/
theorem c7_pkg_insert_returning (w : StmtWorld) (penv : ExeEnv)
    (params : List Param)
    (hoci : w.stmt.ocistmt = true) (hses : w.stmt.ses = true)
    (hpkg : w.envIsPkgEnv = true)
    (hty : w.stmt.stmtType = OCI_STMT_INSERT)
    (hrec : stmtReturningRecognized w.stmt.sql = true)
    (hne : params ≠ [])
    (hplain : params.all Param.isPlain = true)
    (hnolid : params.dropLast.all (fun p => !(p.usesLoc lastInsertIdLoc)) = true)
    (hex : penv.execStatus = OciR.success)
    (hrc : penv.rowCountAttrErr = none)
    (hpf : penv.setAttrPrefetchErr = none)
    (hsp : ∀ k, penv.setPtrErrAt k = none) :
    (Stmt.exe (some w) penv params false).2.err = none ∧
    (Stmt.exe (some w) penv params false).2.rowsAffected = penv.rowCountVal ∧
    (Stmt.exe (some w) penv params false).2.lastInsertId =
      penv.outVals (params.length - 1) ∧
    ((Stmt.exe (some w) penv params false).1.map (fun w' =>
        (w'.stmt.bndsArr.take w'.stmt.bndsLen).getLast?)) =
      some (some (some (Bnd.bInt64Ptr lastInsertIdLoc))) := by
  have hlen0 : params.length ≠ 0 := by
    intro h
    exact hne (List.length_eq_zero.mp h)
  have hlt : params.length - 1 < params.length := by omega
  -- the substituted parameter list
  set ps' := params.set (params.length - 1) (Param.p64 lastInsertIdLoc) with hpsdef
  have hsub : exeSubstParams w params = .ok ps' := by
    simp [exeSubstParams, hpkg, hty, hrec, hlen0]
  have hdec : ps' = params.take (params.length - 1) ++ [Param.p64 lastInsertIdLoc] := by
    rw [hpsdef, List.set_eq_take_cons_drop _ hlt]
    have : params.length - 1 + 1 = params.length := by omega
    rw [this, List.drop_length]
  have htklen : (params.take (params.length - 1)).length = params.length - 1 := by
    simp [List.length_take, Nat.min_eq_left (Nat.le_of_lt hlt)]
  have hplain' : ps'.all Param.isPlain = true := by
    rw [hdec, List.all_append, Bool.and_eq_true]
    refine ⟨?_, by decide⟩
    exact List.all_eq_true.mpr fun x hx =>
      List.all_eq_true.mp hplain x (List.mem_of_mem_take hx)
  have hlen' : ps'.length = params.length := by
    rw [hpsdef, List.length_set]
  have hne' : ps'.length ≠ 0 := by rw [hlen']; exact hlen0
  -- run the bind pass
  have hbp := bindGo_plain w ps' false hplain'
  cases hbg : Stmt.bindGo w ps' false with
  | panicked s m =>
    rw [hbg] at hbp
    simp [GoSt.isOkB] at hbp
  | ok w1 bout =>
    rw [hbg] at hbp
    obtain ⟨-, hptr, -, herr, harr⟩ := hbp
    simp only [GoSt.valOr, GoSt.state] at hptr herr harr
    obtain ⟨hlen1, htake1⟩ := harr hne'
    have hpres := bindGo_preserves w ps' false
    rw [hbg] at hpres
    simp only [GoSt.state] at hpres
    have hses1 : w1.stmt.ses = true := by rw [hpres.2.2.1, hses]
    have hty1 : w1.stmt.stmtType = OCI_STMT_INSERT := by rw [hpres.2.2.2.2.1, hty]
    have hanyout : ps'.any Param.isOutPtr = true := by
      rw [hdec, List.any_append]
      simp [Param.isOutPtr]
    have hpb1 : w1.stmt.hasPtrBind = true := by
      rw [hptr, hanyout, Bool.or_true]
    have hchain : Stmt.exeBody w penv params false =
        exeAfterBind w1 penv bout.iterations := by
      unfold Stmt.exeBody
      rw [show stmtCheckClosed w.stmt = none by simp [stmtCheckClosed, hoci], hses]
      simp only [Bool.not_true, Bool.false_eq_true, if_false]
      rw [hsub]
      simp only [hbg, GoSt.run, herr]
      rw [setPrefetchSizeGo_ok w1 penv hses1 hpf]
    have hafter := exeAfterBind_success w1 penv bout.iterations hty1 hex hrc hpb1
      hsp ps' (by rw [hlen1, htake1])
    have hexe : Stmt.exe (some w) penv params false =
        (some w1,
         { rowsAffected := penv.rowCountVal,
           lastInsertId := lastWriteAt lastInsertIdLoc (ptrWritesPs penv 0 ps'),
           err := none,
           execMode := some (stmtExeMode (Stmt.CfgOf w1) w1.sesOpenTxs),
           execIters := some bout.iterations }) := by
      simp only [Stmt.exe, hchain, hafter]
    rw [hexe]
    -- compute the identity value
    have hwrites : ptrWritesPs penv 0 ps' =
        ptrWritesPs penv 0 (params.take (params.length - 1)) ++
          [(lastInsertIdLoc, penv.outVals (params.length - 1))] := by
      rw [hdec, ptrWritesPs_append]
      rw [htklen]
      simp [ptrWritesPs, Param.descOf]
    have hnolid' : (params.take (params.length - 1)).all
        (fun p => !(p.usesLoc lastInsertIdLoc)) = true := by
      rw [← List.dropLast_eq_take]
      exact hnolid
    have hlid : lastWriteAt lastInsertIdLoc (ptrWritesPs penv 0 ps') =
        penv.outVals (params.length - 1) := by
      rw [hwrites]
      unfold lastWriteAt
      rw [List.filter_append,
        ptrWritesPs_filter_nolid penv lastInsertIdLoc _ 0 hnolid']
      simp
    refine ⟨rfl, rfl, hlid, ?_⟩
    show some ((w1.stmt.bndsArr.take w1.stmt.bndsLen).getLast?) = _
    rw [hlen1, htake1, hdec]
    simp only [List.map_append, List.map_cons, List.map_nil]
    rw [List.getLast?_concat]
    simp [Param.descOf]

/-- Claim C3, amended: after a completed bind pass `hasPtrBind` is true IF
some installed descriptor requires a copy-back, but not only-if: the pass
never clears the flag (only `Stmt.close` does), so its value is the previous
value OR-ed with whether this pass installed an output descriptor — a rebind
with no output pointers leaves a previously-set flag true. -/
theorem c3_hasPtrBind_sticky (w : StmtWorld) (params : List Param) (assoc : Bool)
    (h : params.all Param.isPlain = true) :
    (Stmt.bindGo w params assoc).isOkB = true ∧
    (Stmt.bindGo w params assoc).state.stmt.hasPtrBind =
      (w.stmt.hasPtrBind || params.any Param.isOutPtr) ∧
    (params.length ≠ 0 →
      ((Stmt.bindGo w params assoc).state.stmt.bndsArr.take
          (Stmt.bindGo w params assoc).state.stmt.bndsLen).any
        (fun b => (b.getD (Bnd.bNil 0)).requiresCopyBack) = true →
      (Stmt.bindGo w params assoc).state.stmt.hasPtrBind = true) := by
  obtain ⟨h1, h2, -, -, h5⟩ := bindGo_plain w params assoc h
  refine ⟨h1, h2, fun hne hany => ?_⟩
  obtain ⟨hlen, htake⟩ := h5 hne
  rw [hlen, htake] at hany
  obtain ⟨b, hmem, hb⟩ := List.any_eq_true.mp hany
  obtain ⟨x, hxmem, hxb⟩ := List.mem_map.mp hmem
  have hxo : x.isOutPtr = true := by
    rw [← descOf_requiresCopyBack]
    rw [← hxb] at hb
    simpa using hb
  have hao : params.any Param.isOutPtr = true :=
    List.any_eq_true.mpr ⟨x, hxmem, hxo⟩
  rw [h2, hao, Bool.or_true]

/-- Claim C5, amended: the iteration count returned by `Stmt.bind` is 1 when
no batch-shaped parameter is present (including the empty list), and
otherwise equals the length of the LAST observed batch parameter — each
slice case overwrites `iterations`, so the last batch, not the first, is
authoritative. -/
theorem c5_iterations_last_batch (w : StmtWorld) (params : List Param)
    (assoc : Bool) (h : params.all Param.isPlain = true) :
    (Stmt.bindGo w params assoc).isOkB = true ∧
    ((Stmt.bindGo w params assoc).valOr {}).iterations =
      (lastBatchLen params).getD 1 := by
  obtain ⟨h1, -, h3, -, -⟩ := bindGo_plain w params assoc h
  exact ⟨h1, h3⟩

/-- Claim C8: the multi-step teardowns `Srv.close` and `Stmt.close` attempt
every child close and every cleanup step even when earlier steps return
errors, convert a panic raised during teardown into a reported
`RecoveredFault` instead of propagating it, reset the node regardless, and
return nil exactly when nothing failed, else one error merging all collected
failures in order.  For `Stmt.close`, the native release (which lives in the
deferred function) is attempted and its failure appended even after a body
panic. -/
theorem c8_teardown_collects_all :
    (∀ (w : SrvWorld) (cenv : SrvCloseEnv),
        w.srv.ocisrv = true → w.srv.env = true → w.envSt.ocienv = true →
        (Srv.close w cenv).1.srv = closedSrvSOf w.srv ∧
        Srv.IsOpen (some (Srv.close w cenv).1) = false ∧
        errsOf (Srv.close w cenv).2 =
          (closeAllOutcomes (cenv.sesOutcomes.take w.srv.openSess.length)).1 ++
            (match (closeAllOutcomes (cenv.sesOutcomes.take w.srv.openSess.length)).2 with
             | none => if cenv.detachFails then [ErrAtom.msg cenv.ociErrMsg] else []
             | some m => [ErrAtom.recovered m]) ∧
        ((Srv.close w cenv).2 = none ↔ srvCloseErrs w cenv = [])) ∧
    (∀ (w : StmtWorld) (cenv : StmtCloseEnv),
        w.stmt.ocistmt = true → w.stmt.ses = true →
        (Stmt.close w cenv).1.stmt = closedStmtS w.stmt.id ∧
        Stmt.IsOpen (some (Stmt.close w cenv).1.stmt) = GoResult.ok false ∧
        errsOf (Stmt.close w cenv).2 = stmtCloseErrs w cenv ∧
        ((Stmt.close w cenv).2 = none ↔ stmtCloseErrs w cenv = []) ∧
        (∀ m, (bndCloseLoop (w.stmt.bndsArr.take w.stmt.bndsLen)
                 cenv.bndOutcomes).2 = some m →
          stmtCloseErrs w cenv =
            (bndCloseLoop (w.stmt.bndsArr.take w.stmt.bndsLen)
               cenv.bndOutcomes).1 ++
              [ErrAtom.recovered m] ++
              (if cenv.releaseFails then [ErrAtom.msg cenv.ociErrMsg] else []))) := by
  constructor
  · intro w cenv h1 h2 h3
    have hcc : Srv.checkClosed (some w) = none := by
      simp [Srv.checkClosed, Env.checkClosed, h1, h2, h3]
    have hstep : Srv.close w cenv =
        ({ w with srv := closedSrvSOf w.srv },
         (newMultiErrL (srvCloseErrs w cenv)).map errE) := by
      simp only [Srv.close, hcc]
    refine ⟨by rw [hstep], ?_, ?_, ?_⟩
    · rw [hstep]
      simp [Srv.IsOpen, Srv.checkClosed, closedSrvSOf]
    · rw [hstep]
      show errsOf ((newMultiErrL (srvCloseErrs w cenv)).map errE) = _
      rw [errsOf_newMultiErrL]
      rfl
    · rw [hstep]
      exact newMultiErrL_eq_none (srvCloseErrs w cenv)
  · intro w cenv h1 _
    have hcc : stmtCheckClosed w.stmt = none := by simp [stmtCheckClosed, h1]
    have hstep : Stmt.close w cenv =
        ({ w with stmt := closedStmtS w.stmt.id },
         (newMultiErrL (stmtCloseErrs w cenv)).map errE) := by
      simp only [Stmt.close, hcc]
    refine ⟨by rw [hstep], ?_, ?_, ?_, ?_⟩
    · rw [hstep]
      simp [Stmt.IsOpen, closedStmtS]
    · rw [hstep]
      exact errsOf_newMultiErrL (stmtCloseErrs w cenv)
    · rw [hstep]
      exact newMultiErrL_eq_none (stmtCloseErrs w cenv)
    · intro m hm
      unfold stmtCloseErrs
      simp only [hm]
      simp

/-- Claim C10: `Srv.OpenSes`, `Stmt.exe` (hence `Exe`/`ExeP`) and `Stmt.qry`
(hence `Qry`) run their bodies under a deferred recover, so an internal panic
is converted into an `errR` error returned to the caller and never
propagates. -/
theorem c10_recover_converts_panics :
    (∀ (w : StmtWorld) (penv : ExeEnv) (params : List Param) (assoc : Bool)
        (w' : StmtWorld) (m : String),
        Stmt.exeBody w penv params assoc = .panicked w' m →
        Stmt.exe (some w) penv params assoc =
          (some w', { err := some (errR m) })) ∧
    (∀ (w : StmtWorld) (penv : ExeEnv) (params : List Param)
        (w' : StmtWorld) (m : String),
        Stmt.qryBody w penv params = .panicked w' m →
        Stmt.qry (some w) penv params = (some w', { err := some (errR m) })) ∧
    (∀ (w : SrvWorld) (cfg : SesCfgV) (penv : OpenSesEnv)
        (w' : SrvWorld) (m : String), cfg.IsZero = false →
        Srv.OpenSesBody w cfg penv = .panicked w' m →
        Srv.OpenSes (some w) cfg penv = (some w', (none, some (errR m)))) := by
  refine ⟨?_, ?_, ?_⟩
  · intro w penv params assoc w' m h
    simp [Stmt.exe, h]
  · intro w penv params w' m h
    simp [Stmt.qry, h]
  · intro w cfg penv w' m hz h
    simp [Srv.OpenSes, hz, h]

/-- Claim C3, witness: rebinding the pointer-bound statement with a single
plain value. -/
theorem c3_witness :
    [Param.i64 5].all Param.isPlain = true ∧
    (Stmt.bindGo stmtAfterPtrW [Param.i64 5] false).state.stmt.hasPtrBind =
      (stmtAfterPtrW.stmt.hasPtrBind || [Param.i64 5].any Param.isOutPtr) :=
  ⟨by decide,
   (c3_hasPtrBind_sticky stmtAfterPtrW [Param.i64 5] false (by decide)).2.1⟩

/-- Claim C4, witness at the concrete auto-committing SELECT world. -/
theorem c4_witness :
    exeSubstParams selAutoCommitW [Param.i64 1] = .ok [Param.i64 1] ∧
    ((Stmt.exe (some selAutoCommitW) {} [Param.i64 1] false).2.execMode =
        some OCI_COMMIT_ON_SUCCESS ↔
      ((Stmt.CfgOf selAutoCommitW).isAutoCommitting = true ∧
        selAutoCommitW.sesOpenTxs = 0)) :=
  ⟨by decide,
   (c4_mode_autocommit_only selAutoCommitW {} [Param.i64 1] [Param.i64 1] false
      (by decide) (by decide) (by decide) (by decide) (by decide) (by decide)).2⟩

/-- Claim C5, witness: a single two-element batch. -/
theorem c5_witness :
    [Param.s64 [7, 8]].all Param.isPlain = true ∧
    ((Stmt.bindGo stmtFreshW [Param.s64 [7, 8]] false).valOr {}).iterations =
      (lastBatchLen [Param.s64 [7, 8]]).getD 1 :=
  ⟨by decide,
   (c5_iterations_last_batch stmtFreshW [Param.s64 [7, 8]] false (by decide)).2⟩

/-- Claim C7, witness: the concrete package-environment Insert with the
recognised clause and three parameters. -/
theorem c7_witness :
    stmtReturningRecognized pkgInsW.stmt.sql = true ∧
    (Stmt.exe (some pkgInsW) identPenv [Param.i64 5, Param.i64 6, Param.i64 7]
        false).2.lastInsertId = identPenv.outVals 2 ∧
    (Stmt.exe (some pkgInsW) identPenv [Param.i64 5, Param.i64 6, Param.i64 7]
        false).2.rowsAffected = identPenv.rowCountVal ∧
    ((Stmt.exe (some pkgInsW) identPenv [Param.i64 5, Param.i64 6, Param.i64 7]
        false).1.map (fun w' =>
        (w'.stmt.bndsArr.take w'.stmt.bndsLen).getLast?)) =
      some (some (some (Bnd.bInt64Ptr lastInsertIdLoc))) := by
  have h := c7_pkg_insert_returning pkgInsW identPenv
    [Param.i64 5, Param.i64 6, Param.i64 7] (by decide) (by decide) (by decide)
    (by decide) (by decide) (by decide) (by decide) (by decide) (by decide)
    (by decide) (by decide) (fun k => rfl)
  exact ⟨by decide, h.2.2.1, h.2.1, h.2.2.2⟩

/-- Claim C8, witness: a server whose first and third session closes and
whose detach fail — all three failures are reported in order — and a
statement whose bind-descriptor close panics with a failing release — the
panic is reported as a RecoveredFault and the release failure is still
appended. -/
theorem c8_witness :
    errsOf (Srv.close srvSessW srvFailCenv).2 =
      [ErrAtom.msg "ses11 close failed", ErrAtom.msg "ses13 close failed",
       ErrAtom.msg "ORA-DETACH"] ∧
    Srv.IsOpen (some (Srv.close srvSessW srvFailCenv).1) = false ∧
    errsOf (Stmt.close stmtCloseWitnessW stmtPanicCenv).2 =
      [ErrAtom.recovered "bnd close fault", ErrAtom.msg "ORA-RELEASE"] := by
  refine ⟨?_, ?_, ?_⟩
  · rw [(c8_teardown_collects_all.1 srvSessW srvFailCenv (by decide) (by decide)
        (by decide)).2.2.1]
    decide
  · exact (c8_teardown_collects_all.1 srvSessW srvFailCenv (by decide) (by decide)
      (by decide)).2.1
  · rw [(c8_teardown_collects_all.2 stmtCloseWitnessW stmtPanicCenv (by decide)
        (by decide)).2.2.1]
    decide

/-- Claim C10, witness: bind panics (out-of-range `setNilBind` write) inside
`exe` and `qry`, and a panicking session-begin inside `OpenSes`, are each
returned as recovered errors. -/
theorem c10_witness :
    Stmt.exe (some stmtFreshW) {} [Param.nilV] false =
      (some stmtFreshW, { err := some (errR oobMsg) }) ∧
    Stmt.qry (some stmtFreshW) {} [Param.nilV] =
      (some stmtFreshW, { err := some (errR oobMsg) }) ∧
    Srv.OpenSes (some srvOpenW) { username := "u" } sesPanicPenv =
      (some srvOpenW, (none, some (errR "ociSessionBegin fault"))) :=
  ⟨c10_recover_converts_panics.1 stmtFreshW {} [Param.nilV] false stmtFreshW
     oobMsg (by decide),
   c10_recover_converts_panics.2.1 stmtFreshW {} [Param.nilV] stmtFreshW
     oobMsg (by decide),
   c10_recover_converts_panics.2.2 srvOpenW { username := "u" } sesPanicPenv
     srvOpenW "ociSessionBegin fault" (by decide) (by decide)⟩
